import Mathlib

/-!
Shallow embedding of the `pedidos_shameless` storefront (TypeScript) and
verification of the frozen claims about it.

Sources embedded here:
  * `src/db/queries.ts` — `getProducts`, `SPANISH_PROVINCE_CODES`,
    `getProvinceCode`, `createOrder`, and the cart-based `OrderForm`
    component (`handleSubmit`, `addToCart`, `removeFromCart`,
    `updateQuantity`) that is concatenated into the same file.
  * `src/app/components/AddressAutocomplete.tsx` — `loadGoogleMapsScript`
    and `handlePlaceChanged`.

Asynchronous network calls are embedded by making the fetch outcome an
explicit argument (`FetchOutcome`); a thrown JS exception is `Except.error`.
JS `undefined` is `Option.none`.  JS numbers holding quantities and
inventory counts are embedded as `Int`.
-/

/-! ## Province lookup (`src/db/queries.ts`, `SPANISH_PROVINCE_CODES` / `getProvinceCode`) -/

/-- Combining acute accent U+0301, produced by NFD decomposition. -/
def combiningAcute : Char := Char.ofNat 0x0301

/-- Combining grave accent U+0300. -/
def combiningGrave : Char := Char.ofNat 0x0300

/-- Combining tilde U+0303. -/
def combiningTilde : Char := Char.ofNat 0x0303

/-- Combining diaeresis U+0308. -/
def combiningDiaeresis : Char := Char.ofNat 0x0308

/-- Unicode NFD decomposition of a single character, for the Latin
repertoire that can occur in Spanish province names (the characters of the
`SPANISH_PROVINCE_CODES` table and their case variants).  Characters
outside this repertoire are NFD-inert here. -/
def nfdChar : Char → List Char
  | 'Á' => ['A', combiningAcute]
  | 'É' => ['E', combiningAcute]
  | 'Í' => ['I', combiningAcute]
  | 'Ó' => ['O', combiningAcute]
  | 'Ú' => ['U', combiningAcute]
  | 'á' => ['a', combiningAcute]
  | 'é' => ['e', combiningAcute]
  | 'í' => ['i', combiningAcute]
  | 'ó' => ['o', combiningAcute]
  | 'ú' => ['u', combiningAcute]
  | 'À' => ['A', combiningGrave]
  | 'È' => ['E', combiningGrave]
  | 'Ì' => ['I', combiningGrave]
  | 'Ò' => ['O', combiningGrave]
  | 'Ù' => ['U', combiningGrave]
  | 'à' => ['a', combiningGrave]
  | 'è' => ['e', combiningGrave]
  | 'ì' => ['i', combiningGrave]
  | 'ò' => ['o', combiningGrave]
  | 'ù' => ['u', combiningGrave]
  | 'Ñ' => ['N', combiningTilde]
  | 'ñ' => ['n', combiningTilde]
  | 'Ü' => ['U', combiningDiaeresis]
  | 'ü' => ['u', combiningDiaeresis]
  | c => [c]

/-- A character in the combining-diacritical-marks block U+0300..U+036F,
the range removed by the source's regex. -/
def isCombiningMark (c : Char) : Bool :=
  0x0300 ≤ c.toNat && c.toNat ≤ 0x036F

/-- Embedding of the source normalization
`name.normalize("NFD").replace(/[̀-ͯ]/g, "").toUpperCase()`.
After NFD plus mark removal the province-name repertoire is ASCII, so the
ASCII `Char.toUpper` models `toUpperCase` faithfully on it. -/
def normalizeName (s : String) : String :=
  String.mk (((s.data.flatMap nfdChar).filter (fun c => !(isCombiningMark c))).map Char.toUpper)

/-- The fixed province table of `src/db/queries.ts`, in source (insertion)
order, as traversed by `Object.entries`. -/
def SPANISH_PROVINCE_CODES : List (String × String) :=
  [("Álava", "VI"),
   ("Albacete", "AB"),
   ("Alicante", "A"),
   ("Almería", "AL"),
   ("Asturias", "O"),
   ("Ávila", "AV"),
   ("Badajoz", "BA"),
   ("Barcelona", "B"),
   ("Burgos", "BU"),
   ("Cáceres", "CC"),
   ("Cádiz", "CA"),
   ("Cantabria", "S"),
   ("Castellón", "CS"),
   ("Ciudad Real", "CR"),
   ("Córdoba", "CO"),
   ("La Coruña", "C"),
   ("Cuenca", "CU"),
   ("Gerona", "GI"),
   ("Granada", "GR"),
   ("Guadalajara", "GU"),
   ("Guipúzcoa", "SS"),
   ("Huelva", "H"),
   ("Huesca", "HU"),
   ("Islas Baleares", "PM"),
   ("Jaén", "J"),
   ("León", "LE"),
   ("Lérida", "L"),
   ("Lugo", "LU"),
   ("Madrid", "M"),
   ("Málaga", "MA"),
   ("Murcia", "MU"),
   ("Navarra", "NA"),
   ("Orense", "OR"),
   ("Palencia", "P"),
   ("Las Palmas", "GC"),
   ("Pontevedra", "PO"),
   ("La Rioja", "LO"),
   ("Salamanca", "SA"),
   ("Santa Cruz de Tenerife", "TF"),
   ("Segovia", "SG"),
   ("Sevilla", "SE"),
   ("Soria", "SO"),
   ("Tarragona", "T"),
   ("Teruel", "TE"),
   ("Toledo", "TO"),
   ("Valencia", "V"),
   ("Valladolid", "VA"),
   ("Vizcaya", "BI"),
   ("Zamora", "ZA"),
   ("Zaragoza", "Z")]

/-- Embedding of `getProvinceCode`: normalize the input, scan the table in
order for an entry whose normalized name matches, return its code, and
fall back to the original input when no entry matches. -/
def getProvinceCode (provinceName : String) : String :=
  let normalizedName := normalizeName provinceName
  match SPANISH_PROVINCE_CODES.find?
      (fun entry => normalizeName (Prod.fst entry) == normalizedName) with
  | some entry => Prod.snd entry
  | none => provinceName

/-! ## Catalog fetcher (`src/db/queries.ts`, `getProducts`) -/

/-- An image node of the catalog query.  The query requests `url` and the
alias `src: url`, so every node the backend returns carries both keys with
the same value. -/
structure ImageNode where
  url : String
  src : String
deriving DecidableEq, Repr

/-- A variant node of the catalog query. -/
structure VariantNode where
  id : String
  price : String
  title : String
  inventoryQuantity : Int
deriving DecidableEq, Repr

/-- The normalized single representative image attached by `getProducts`. -/
structure ProductImage where
  src : String
deriving DecidableEq, Repr

/-- A product as carried by the `ShopifyProduct` interface.  The
`images.edges` / `variants.edges` wrappers are embedded as the lists of
their nodes; the optional `image` field is the normalization target. -/
structure ShopifyProduct where
  id : String
  title : String
  handle : String
  description : String
  images : List ImageNode
  variants : List VariantNode
  image : Option ProductImage
deriving DecidableEq, Repr

/-- A GraphQL-level error entry of a response body. -/
structure GraphQLError where
  message : String
deriving DecidableEq, Repr

/-- Parsed JSON body of the catalog response: the destructured `data` and
`errors` keys (`none` embeds JS `undefined`).  `data` holds the
`products.edges` nodes. -/
structure ProductsBody where
  data : Option (List ShopifyProduct)
  errors : Option (List GraphQLError)
deriving DecidableEq, Repr

/-- Outcome of a `fetch` call: either the promise rejects (network error)
or an HTTP response arrives with an `ok` flag, a status, and a body;
`body = none` embeds a body on which `response.json()` rejects. -/
inductive FetchOutcome (β : Type) where
  | networkError (message : String)
  | response (ok : Bool) (status : Nat) (body : Option β)
deriving DecidableEq, Repr

/-- The per-product normalization inside `getProducts`: attach
`image.src` from the first image node, or `""` when there is none. -/
def transformProduct (product : ShopifyProduct) : ShopifyProduct :=
  match product.images with
  | imageNode :: _ => { product with image := some { src := imageNode.src } }
  | [] => { product with image := some { src := "" } }

/-- Embedding of `getProducts` over an explicit fetch outcome: throw on a
non-ok HTTP status, throw when the body does not parse, throw on
GraphQL-level `errors`, throw when `data` is absent (the JS field access
`data.products` raises a `TypeError`), and otherwise return the
transformed product list. -/
def getProducts (outcome : FetchOutcome ProductsBody) :
    Except String (List ShopifyProduct) :=
  match outcome with
  | .networkError message => .error message
  | .response ok status body =>
    if !ok then .error ("HTTP error! status: " ++ toString status)
    else
      match body with
      | none => .error "Unexpected end of JSON input"
      | some parsed =>
        match parsed.errors with
        | some _ => .error "GraphQL query failed"
        | none =>
          match parsed.data with
          | none => .error "TypeError: Cannot read properties of undefined"
          | some productNodes => .ok (productNodes.map transformProduct)

/-! ## Order submitter (`src/db/queries.ts`, `createOrder`) -/

/-- A `userErrors` entry of the `orderCreate` payload. -/
structure UserError where
  field : String
  message : String
deriving DecidableEq, Repr

/-- The created order as selected by the mutation (`id`, `name`, `email`,
`createdAt`; the shipping-address sub-selection is summarized by its
`city`, which is all the claims inspect). -/
structure CreatedOrder where
  id : String
  name : String
  email : String
  createdAt : String
deriving DecidableEq, Repr

/-- The `orderCreate` payload of the mutation response. -/
structure OrderCreatePayload where
  order : Option CreatedOrder
  userErrors : Option (List UserError)
deriving DecidableEq, Repr

/-- The `data` key of the mutation response. -/
structure OrderData where
  orderCreate : Option OrderCreatePayload
deriving DecidableEq, Repr

/-- Parsed JSON body of the mutation response. -/
structure OrderBody where
  data : Option OrderData
  errors : Option (List GraphQLError)
deriving DecidableEq, Repr

/-- Structured result of `createOrder`: `{success:true, data}` or
`{success:false, error}` where the error payload is either a message
string or the backend's `userErrors` list. -/
inductive OrderResult where
  | success (data : CreatedOrder)
  | failureMessage (error : String)
  | failureUserErrors (error : List UserError)
deriving DecidableEq, Repr

/-- A line item of the constructed `orderCreate` request.  `variantId` is
optional because `createOrder` copies `orderData.variantId`, which the
cart-based caller leaves `undefined`; `JSON.stringify` then drops it. -/
structure RequestLineItem where
  variantId : Option String
  quantity : Int
  requiresShipping : Bool
deriving DecidableEq, Repr

/-- A mailing address of the constructed request (billing or shipping). -/
structure MailingAddress where
  address1 : String
  address2 : String
  city : String
  countryCode : String
  firstName : String
  lastName : String
  phone : String
  provinceCode : String
  zip : String
deriving DecidableEq, Repr

/-- A shipping line of the constructed request (`priceSet.shopMoney`
flattened to amount and currency). -/
structure ShippingLine where
  amount : String
  currencyCode : String
  title : String
deriving DecidableEq, Repr

/-- A transaction record of the constructed request (`amountSet.shopMoney`
flattened). -/
structure OrderTransaction where
  amount : String
  currencyCode : String
  kind : String
  gateway : String
  status : String
deriving DecidableEq, Repr

/-- The `order` part of the mutation variables. -/
structure OrderCreateOrder where
  billingAddress : MailingAddress
  buyerAcceptsMarketing : Bool
  currency : String
  email : String
  financialStatus : String
  lineItems : List RequestLineItem
  note : String
  shippingAddress : MailingAddress
  shippingLines : List ShippingLine
  tags : List String
  taxesIncluded : Bool
  test : Bool
  transactions : List OrderTransaction
deriving DecidableEq, Repr

/-- The `options` part of the mutation variables. -/
structure OrderCreateOptions where
  inventoryBehaviour : String
  sendFulfillmentReceipt : Bool
  sendReceipt : Bool
deriving DecidableEq, Repr

/-- The complete `variables` object sent with the `orderCreate` mutation. -/
structure OrderVariables where
  options : OrderCreateOptions
  order : OrderCreateOrder
deriving DecidableEq, Repr

/-- A cart line item as built by the cart-based `handleSubmit`
(`{variantId, quantity}`). -/
structure CartLineItem where
  variantId : String
  quantity : Int
deriving DecidableEq, Repr

/-- The runtime argument object reaching `createOrder`.  The declared
`OrderInput` interface has mandatory `productId`/`variantId` strings, but
the cart-based `handleSubmit` passes an object carrying `lineItems` and no
`productId`/`variantId`, so those are embedded as optional, and the extra
`lineItems` key is carried along (ignored by `createOrder`). -/
structure CreateOrderArg where
  firstName : String
  lastName : String
  email : String
  phone : String
  address1 : String
  city : String
  zip : String
  productId : Option String
  variantId : Option String
  lineItems : Option (List CartLineItem)
deriving DecidableEq, Repr

/-- The JS `x || d` default for strings: `d` when `x` is falsy (empty). -/
def orDefault (x d : String) : String :=
  if x = "" then d else x

/-- Embedding of the `variables` construction inside `createOrder`:
billing and shipping addresses built identically with `|| "Return"` /
`|| "+34608667749"` defaults, province code resolved from the city, a
fixed shipping line of 4.00 EUR, a 0.01 EUR manual SALE transaction, and a
single hardcoded line item `{variantId: orderData.variantId, quantity: 1,
requiresShipping: true}` — `orderData.lineItems` is never read. -/
def createOrderVariables (orderData : CreateOrderArg) : OrderVariables :=
  let provinceCode := getProvinceCode orderData.city
  let address : MailingAddress :=
    { address1 := orderData.address1
      address2 := ""
      city := orderData.city
      countryCode := "ES"
      firstName := orDefault orderData.firstName "Return"
      lastName := orDefault orderData.lastName "Return"
      phone := orDefault orderData.phone "+34608667749"
      provinceCode := provinceCode
      zip := orderData.zip }
  { options :=
      { inventoryBehaviour := "DECREMENT_OBEYING_POLICY"
        sendFulfillmentReceipt := true
        sendReceipt := true }
    order :=
      { billingAddress := address
        buyerAcceptsMarketing := true
        currency := "EUR"
        email := orderData.email
        financialStatus := "PAID"
        lineItems := [{ variantId := orderData.variantId
                        quantity := 1
                        requiresShipping := true }]
        note := "Pedido Pop Up"
        shippingAddress := address
        shippingLines := [{ amount := "4.00", currencyCode := "EUR", title := "Estándar" }]
        tags := ["Pop Up"]
        taxesIncluded := true
        test := false
        transactions := [{ amount := "0.01", currencyCode := "EUR",
                           kind := "SALE", gateway := "manual", status := "SUCCESS" }] } }

/-- Embedding of the response classification at the end of `createOrder`
(everything after `await response.json()` succeeds): missing
`data?.orderCreate`, then non-empty `userErrors`, then missing `order`,
otherwise success.  The `data.errors` key is only logged and does not
affect the result. -/
def classifyOrderBody (parsed : OrderBody) : OrderResult :=
  match parsed.data.bind (fun d => d.orderCreate) with
  | none => .failureMessage "Missing orderCreate field"
  | some orderResponse =>
    match orderResponse.userErrors with
    | some userErrors =>
      if userErrors.length > 0 then .failureUserErrors userErrors
      else
        match orderResponse.order with
        | none => .failureMessage "Order not found in response"
        | some createdOrder => .success createdOrder
    | none =>
      match orderResponse.order with
      | none => .failureMessage "Order not found in response"
      | some createdOrder => .success createdOrder

/-- Embedding of the transport part of `createOrder`: a rejected `fetch`
or a rejected `response.json()` propagates as an exception; any parsed
body — the HTTP `ok` flag and status are never inspected — is classified
into a structured result. -/
def createOrder (outcome : FetchOutcome OrderBody) : Except String OrderResult :=
  match outcome with
  | .networkError message => .error message
  | .response _ok _status body =>
    match body with
    | none => .error "Unexpected end of JSON input"
    | some parsed => .ok (classifyOrderBody parsed)

/-! ## Cart state (`OrderForm` in `src/db/queries.ts`) -/

/-- A cart variant as stored in a `CartItem` (the `variant` field of the
`CartItem` interface). -/
structure CartVariant where
  id : String
  title : String
  price : String
  inventoryQuantity : Int
deriving DecidableEq, Repr

/-- A cart item of the cart-based `OrderForm`. -/
structure CartItem where
  productId : String
  variantId : String
  quantity : Int
  product : ShopifyProduct
  variant : CartVariant
deriving DecidableEq, Repr

/-- The client-side state the cart operations touch: the `cartItems` list
and the `error` banner (`none` embeds `null`). -/
structure CartState where
  cartItems : List CartItem
  error : Option String
deriving DecidableEq, Repr

/-- Update the first cart item with the given variant id, as the
`index === existingItemIndex` map inside `addToCart` does (only the first
match is touched, matching `findIndex`). -/
def updateFirstQuantity : List CartItem → String → Int → List CartItem
  | [], _, _ => []
  | item :: rest, variantId, addedQuantity =>
    if item.variantId = variantId then
      { item with quantity := item.quantity + addedQuantity } :: rest
    else
      item :: updateFirstQuantity rest variantId addedQuantity

/-- The `currentQuantity` computed by `addToCart`: the quantity of the
first cart item with the variant id, or 0 when the variant is not in the
cart. -/
def currentQuantityOf (items : List CartItem) (variantId : String) : Int :=
  match items.find? (fun item => item.variantId = variantId) with
  | some item => item.quantity
  | none => 0

/-- Embedding of `addToCart`: reject (setting the error banner, cart
unchanged) when the existing quantity plus the added quantity exceeds the
passed variant's `inventoryQuantity`; otherwise bump the existing item or
append a new one, and clear the error. -/
def addToCart (state : CartState) (product : ShopifyProduct)
    (variant : CartVariant) (quantity : Int) : CartState :=
  if currentQuantityOf state.cartItems variant.id + quantity > variant.inventoryQuantity then
    { state with error := some "Cannot add more than available stock" }
  else
    match state.cartItems.find? (fun item => item.variantId = variant.id) with
    | some _ =>
      { cartItems := updateFirstQuantity state.cartItems variant.id quantity
        error := none }
    | none =>
      { cartItems := state.cartItems ++
          [{ productId := product.id
             variantId := variant.id
             quantity := quantity
             product := product
             variant := variant }]
        error := none }

/-- Embedding of `removeFromCart`: drop every item with the variant id;
the error banner is untouched. -/
def removeFromCart (state : CartState) (variantId : String) : CartState :=
  { state with cartItems := state.cartItems.filter (fun item => item.variantId ≠ variantId) }

/-- The guard of `updateQuantity`, the truthiness of
`item && quantity > item.variant.inventoryQuantity` for the found item:
false when the variant is not in the cart. -/
def exceedsStoredStock (items : List CartItem) (variantId : String) (quantity : Int) : Bool :=
  match items.find? (fun item => item.variantId = variantId) with
  | some item => quantity > item.variant.inventoryQuantity
  | none => false

/-- Embedding of `updateQuantity`: a quantity of zero or less delegates to
`removeFromCart`; a quantity above the found item's stored
`inventoryQuantity` is rejected with an error banner and no cart change;
otherwise every item with the variant id gets the new quantity and the
error is cleared. -/
def updateQuantity (state : CartState) (variantId : String) (quantity : Int) : CartState :=
  if quantity ≤ 0 then
    removeFromCart state variantId
  else if exceedsStoredStock state.cartItems variantId quantity then
    { state with error := some "Cannot set quantity above available stock" }
  else
    { cartItems := state.cartItems.map (fun item =>
        if item.variantId = variantId then { item with quantity := quantity } else item)
      error := none }

/-- A cart operation, for quantifying over reachable cart states. -/
inductive CartOp where
  | add (product : ShopifyProduct) (variant : CartVariant) (quantity : Int)
  | update (variantId : String) (quantity : Int)
  | remove (variantId : String)
deriving DecidableEq, Repr

/-- Apply one cart operation. -/
def applyCartOp (state : CartState) : CartOp → CartState
  | .add product variant quantity => addToCart state product variant quantity
  | .update variantId quantity => updateQuantity state variantId quantity
  | .remove variantId => removeFromCart state variantId

/-- Run a sequence of cart operations from a state. -/
def runCartOps (state : CartState) (ops : List CartOp) : CartState :=
  ops.foldl applyCartOp state

/-- The initial cart state: empty cart, no error. -/
def initialCartState : CartState := { cartItems := [], error := none }

/-- The contact/address form of the cart-based `OrderForm`. -/
structure OrderFormData where
  address1 : String
  city : String
  firstName : String
  lastName : String
  phone : String
  zip : String
  email : String
deriving DecidableEq, Repr

/-- Embedding of the cart-based `handleSubmit`: with an empty cart no
mutation is fired; otherwise exactly one `createOrder` call is made, whose
request variables this returns.  The argument object carries the form
fields plus `lineItems` mapped from the cart; it has no
`productId`/`variantId` keys. -/
def handleSubmit (formData : OrderFormData) (cartItems : List CartItem) :
    List OrderVariables :=
  if cartItems.length = 0 then []
  else
    let orderData : CreateOrderArg :=
      { firstName := formData.firstName
        lastName := formData.lastName
        email := formData.email
        phone := formData.phone
        address1 := formData.address1
        city := formData.city
        zip := formData.zip
        productId := none
        variantId := none
        lineItems := some (cartItems.map (fun item =>
          { variantId := item.variantId, quantity := item.quantity })) }
    [createOrderVariables orderData]

/-! ## Script loader (`src/app/components/AddressAutocomplete.tsx`,
`loadGoogleMapsScript`) -/

/-- The module-level loader state plus the observable document state:
`isScriptLoaded` and `scriptLoadPromise` are the two module variables
(promises are identified by numeric ids, `none` embeds `null`);
`domHasScript` is whether a maps script tag is in the document;
`injectedScripts` counts script elements appended by the loader;
`nextPromiseId` supplies fresh promise ids. -/
structure LoaderState where
  isScriptLoaded : Bool
  scriptLoadPromise : Option Nat
  domHasScript : Bool
  injectedScripts : Nat
  nextPromiseId : Nat
deriving DecidableEq, Repr

/-- What a call to `loadGoogleMapsScript` returns: a fresh
`Promise.resolve()`, the cached in-flight promise, or a newly created
promise. -/
inductive LoadResult where
  | freshResolved
  | cached (promiseId : Nat)
  | created (promiseId : Nat)
deriving DecidableEq, Repr

/-- Embedding of one call to `loadGoogleMapsScript`: short-circuit on the
loaded flag with a fresh resolved promise; return the cached promise when
one is in flight; otherwise create a promise whose executor either finds
an existing maps script tag (set the flag, resolve, inject nothing) or
creates and appends a script element. -/
def loadGoogleMapsScript (s : LoaderState) : LoadResult × LoaderState :=
  if s.isScriptLoaded then (.freshResolved, s)
  else
    match s.scriptLoadPromise with
    | some promiseId => (.cached promiseId, s)
    | none =>
      let promiseId := s.nextPromiseId
      if s.domHasScript then
        (.created promiseId,
         { s with isScriptLoaded := true
                  scriptLoadPromise := some promiseId
                  nextPromiseId := promiseId + 1 })
      else
        (.created promiseId,
         { s with scriptLoadPromise := some promiseId
                  domHasScript := true
                  injectedScripts := s.injectedScripts + 1
                  nextPromiseId := promiseId + 1 })

/-- Events that touch the loader state: a call to the loader, the injected
script's `onload` callback (sets the loaded flag), and its `onerror`
callback (rejects the promise; it touches no module variable, in
particular it does not clear `scriptLoadPromise`). -/
inductive LoaderEvent where
  | call
  | onload
  | onerror
deriving DecidableEq, Repr

/-- Apply one loader event to the state. -/
def stepLoader (s : LoaderState) : LoaderEvent → LoaderState
  | .call => (loadGoogleMapsScript s).2
  | .onload => { s with isScriptLoaded := true }
  | .onerror => s

/-- Run a sequence of loader events. -/
def runLoader (s : LoaderState) (events : List LoaderEvent) : LoaderState :=
  events.foldl stepLoader s

/-- The fresh module state: flag false, no cached promise, nothing
injected; the document may or may not already hold a maps script tag. -/
def initialLoaderState (domHasScript : Bool) : LoaderState :=
  { isScriptLoaded := false
    scriptLoadPromise := none
    domHasScript := domHasScript
    injectedScripts := 0
    nextPromiseId := 0 }

/-! ## Address adapter (`src/app/components/AddressAutocomplete.tsx`,
`handlePlaceChanged`) -/

/-- An entry of `place.address_components`. -/
structure AddressComponent where
  long_name : String
  short_name : String
  types : List String
deriving DecidableEq, Repr

/-- A place returned by `autocomplete.getPlace()`; optional fields embed
possibly-`undefined` keys. -/
structure Place where
  address_components : Option (List AddressComponent)
  formatted_address : Option String
  name : Option String
deriving DecidableEq, Repr

/-- The tuple handed to `onAddressSelect`. -/
structure SelectedAddress where
  street : String
  city : String
  zip : String
deriving DecidableEq, Repr

/-- Whether a component contributes to the street (`route` or
`street_number` in its types). -/
def isStreetComponent (c : AddressComponent) : Bool :=
  c.types.contains "route" || c.types.contains "street_number"

/-- Whether a component contributes the city (`locality` or
`administrative_area_level_2`). -/
def isCityComponent (c : AddressComponent) : Bool :=
  c.types.contains "locality" || c.types.contains "administrative_area_level_2"

/-- Whether a component contributes the postal code. -/
def isZipComponent (c : AddressComponent) : Bool :=
  c.types.contains "postal_code"

/-- One iteration of the component loop in `handlePlaceChanged`, updating
the `(street, city, zip)` accumulator exactly as the three `if`s do: a
street component is appended with a space unless the accumulated street is
still falsy (empty), and city/zip components overwrite. -/
def placeStep (acc : String × String × String) (c : AddressComponent) :
    String × String × String :=
  let street := acc.1
  let city := acc.2.1
  let zip := acc.2.2
  let street :=
    if isStreetComponent c then
      if street ≠ "" then street ++ " " ++ c.long_name else c.long_name
    else street
  let city := if isCityComponent c then c.long_name else city
  let zip := if isZipComponent c then c.long_name else zip
  (street, city, zip)

/-- The component loop of `handlePlaceChanged`, started from empty
strings. -/
def extractParts (components : List AddressComponent) : String × String × String :=
  components.foldl placeStep ("", "", "")

/-- Embedding of `handlePlaceChanged`: when the place has
`address_components`, run the loop, fall back to a truthy
`formatted_address` when the accumulated street is empty, and deliver the
tuple to the callback (`none` = no callback fired). -/
def handlePlaceChanged (place : Place) : Option SelectedAddress :=
  match place.address_components with
  | none => none
  | some components =>
    let parts := extractParts components
    let street := parts.1
    let street :=
      match place.formatted_address with
      | some formatted => if street = "" ∧ formatted ≠ "" then formatted else street
      | none => street
    some { street := street, city := parts.2.1, zip := parts.2.2 }

/-- Modelled from the spec: the street the spec describes, "the
concatenation (space-joined, in component order) of the long_name values
of components typed route or street_number". -/
def specStreetJoin : List String → String
  | [] => ""
  | [longName] => longName
  | longName :: rest => longName ++ " " ++ specStreetJoin rest

/-- The long names of the street components of a list, in order. -/
def streetLongNames (components : List AddressComponent) : List String :=
  (components.filter isStreetComponent).map (fun c => c.long_name)

/-- The long names of the city components of a list, in order. -/
def cityLongNames (components : List AddressComponent) : List String :=
  (components.filter isCityComponent).map (fun c => c.long_name)

/-- The long names of the postal-code components of a list, in order. -/
def zipLongNames (components : List AddressComponent) : List String :=
  (components.filter isZipComponent).map (fun c => c.long_name)

/-- The last element of a list, or a default: the value left in an
overwrite-style accumulator after traversing the list. -/
def lastOrDefault (d : String) : List String → String
  | [] => d
  | longName :: rest => lastOrDefault longName rest

/-- The tail of a space-join: one leading space before every element. -/
def spaceTailJoin : List String → String
  | [] => ""
  | longName :: rest => " " ++ longName ++ spaceTailJoin rest

/-! ## Sample data for concrete evaluations -/

/-- A sample catalog product without images. -/
def sampleProduct : ShopifyProduct :=
  { id := "gid-product-1", title := "Tee", handle := "tee", description := "A tee"
    images := [], variants := [], image := none }

/-- A sample image node as the catalog query returns it (`src` aliases
`url`). -/
def sampleImageNode : ImageNode :=
  { url := "https://cdn.example.com/1.png", src := "https://cdn.example.com/1.png" }

/-- A sample catalog product with one image. -/
def sampleProductWithImage : ShopifyProduct :=
  { id := "gid-product-2", title := "Hoodie", handle := "hoodie", description := ""
    images := [sampleImageNode], variants := [], image := none }

/-- A sample parsed catalog body with two products. -/
def sampleProductsBody : ProductsBody :=
  { data := some [sampleProduct, sampleProductWithImage], errors := none }

/-- A sample filled contact/address form. -/
def sampleForm : OrderFormData :=
  { address1 := "Calle Mayor 5", city := "Madrid", firstName := "Ana"
    lastName := "Garcia", phone := "+34600000000", zip := "28001"
    email := "ana@example.com" }

/-- A sample cart item: variant `gid-variant-1`, quantity 2, inventory 3. -/
def sampleCartItem : CartItem :=
  { productId := "gid-product-1", variantId := "gid-variant-1", quantity := 2
    product := sampleProduct
    variant := { id := "gid-variant-1", title := "M", price := "10.00", inventoryQuantity := 3 } }

/-- A sample mutation body whose payload carries one user error. -/
def sampleUserErrorsBody : OrderBody :=
  { data := some { orderCreate := some { order := none, userErrors := some [{ field := "lineItems", message := "x" }] } }, errors := none }

/-- A sample mutation body whose payload has an empty `userErrors` list and no order. -/
def sampleMissingOrderBody : OrderBody :=
  { data := some { orderCreate := some { order := none, userErrors := some [] } }, errors := none }

/-- A sample created order. -/
def sampleCreatedOrder : CreatedOrder :=
  { id := "o1", name := "#1001", email := "a@b.c", createdAt := "t" }

/-- A sample well-formed success body for the mutation. -/
def sampleSuccessBody : OrderBody :=
  { data := some { orderCreate := some { order := some sampleCreatedOrder, userErrors := none } }, errors := none }

/-! ## Invariants used by the claims about stateful components -/

/-- Safety invariant of the loader state: at most one script was ever
injected, and none before a promise was cached. -/
def LoaderInv (s : LoaderState) : Prop :=
  s.injectedScripts ≤ 1 ∧ (s.scriptLoadPromise = none → s.injectedScripts = 0)

/-- Stock consistency of a cart state relative to a fixed per-variant-id
inventory: every item respects the stock ceiling and stores that
inventory in its variant record. -/
def cartConsistent (inventoryOf : String → Int) (state : CartState) : Prop :=
  ∀ item ∈ state.cartItems,
    item.quantity ≤ item.variant.inventoryQuantity ∧
    item.variant.inventoryQuantity = inventoryOf item.variantId

/-- Whether a cart operation's variant data agrees with the fixed
inventory (as holds in the app, where every variant record comes from the
one catalog fetch). -/
def opConsistent (inventoryOf : String → Int) : CartOp → Bool
  | .add _ variant _ => variant.inventoryQuantity == inventoryOf variant.id
  | .update _ _ => true
  | .remove _ => true

/-- A sample small-stock variant record for `gid-variant-1`. -/
def sampleVariantSmall : CartVariant :=
  { id := "gid-variant-1", title := "M", price := "10.00", inventoryQuantity := 5 }

/-- A sample variant record for the same id claiming a larger stock. -/
def sampleVariantInflated : CartVariant :=
  { id := "gid-variant-1", title := "M", price := "10.00", inventoryQuantity := 100 }

/-- A sample loader state with a load in flight (promise 0 cached). -/
def sampleInFlightLoader : LoaderState :=
  { isScriptLoaded := false, scriptLoadPromise := some 0, domHasScript := true
    injectedScripts := 1, nextPromiseId := 1 }

/-- A sample loader state after the script finished loading. -/
def sampleLoadedLoader : LoaderState :=
  { isScriptLoaded := true, scriptLoadPromise := some 0, domHasScript := true
    injectedScripts := 1, nextPromiseId := 1 }

/-- A sample `route` component with an empty long name. -/
def sampleRouteEmpty : AddressComponent :=
  { long_name := "", short_name := "", types := ["route"] }

/-- A sample `route` component named `Foo`. -/
def sampleRouteFoo : AddressComponent :=
  { long_name := "Foo", short_name := "", types := ["route"] }

/-- A sample place whose first street component has an empty long name. -/
def samplePlaceLeadingEmpty : Place :=
  { address_components := some [sampleRouteEmpty, sampleRouteFoo]
    formatted_address := none, name := none }

/-- Sample components of a Madrid address: route, street number,
locality, and postal code. -/
def sampleMadridComponents : List AddressComponent :=
  [{ long_name := "Calle Mayor", short_name := "C. Mayor", types := ["route"] },
   { long_name := "5", short_name := "5", types := ["street_number"] },
   { long_name := "Madrid", short_name := "Madrid", types := ["locality", "political"] },
   { long_name := "28001", short_name := "28001", types := ["postal_code"] }]

/-- A sample selected place for the Madrid address. -/
def samplePlaceMadrid : Place :=
  { address_components := some sampleMadridComponents
    formatted_address := some "Calle Mayor, 5, 28001 Madrid, Spain", name := none }

/-! # Theorems -/

/-- C4 counterexample: `"Atlantis"` and `"ATLANTIS"` have the same
accent-stripped uppercase form, yet `getProvinceCode` returns each of them
unchanged, so the two results differ — the claimed insensitivity fails on
inputs that match no table entry. -/
theorem c4_counterexample_unmatched_inputs_differ :
    normalizeName "Atlantis" = normalizeName "ATLANTIS" ∧
    getProvinceCode "Atlantis" = "Atlantis" ∧
    getProvinceCode "ATLANTIS" = "ATLANTIS" ∧
    getProvinceCode "Atlantis" ≠ getProvinceCode "ATLANTIS" :=
  ⟨by decide, by decide, by decide, by decide⟩

/-- C4 (amended): the lookup is case- and accent-insensitive on inputs
whose normalized form matches a table entry — two inputs with the same
normalized form and a match yield the same result — a matching name
yields the table's code (`getProvinceCode "MADRID" = getProvinceCode
"Madrid" = "M"`), and an input whose normalized form matches no entry is
returned unchanged (`getProvinceCode "Atlantis" = "Atlantis"`). -/
theorem c4_province_lookup_insensitive_on_matches :
    (∀ s₁ s₂ : String, normalizeName s₁ = normalizeName s₂ →
      (SPANISH_PROVINCE_CODES.find?
        (fun entry => normalizeName (Prod.fst entry) == normalizeName s₁)).isSome = true →
      getProvinceCode s₁ = getProvinceCode s₂) ∧
    getProvinceCode "MADRID" = "M" ∧
    getProvinceCode "Madrid" = "M" ∧
    getProvinceCode "Atlantis" = "Atlantis" := by
  refine ⟨?_, by decide, by decide, by decide⟩
  intro s₁ s₂ hnorm hmatch
  rw [hnorm] at hmatch
  unfold getProvinceCode
  simp only [hnorm]
  cases hfind : SPANISH_PROVINCE_CODES.find?
      (fun entry => normalizeName (Prod.fst entry) == normalizeName s₂) with
  | none => rw [hfind] at hmatch; simp at hmatch
  | some entry => rfl

/-- C4 witness: the generic insensitivity conjunct applied to the
concrete matching pair `"MADRID"` / `"Madrid"`. -/
theorem c4_province_lookup_witness :
    getProvinceCode "MADRID" = getProvinceCode "Madrid" :=
  c4_province_lookup_insensitive_on_matches.1 "MADRID" "Madrid" (by decide) (by decide)

/-- C6: every product in a successful `getProducts` result carries an
`image` field whose `src` is `""` when the product has no images and the
first image's URL when it has at least one (the query aliases `src` to
`url`, so first-image nodes satisfy `src = url`). -/
theorem c6_image_src_normalized :
    ∀ (outcome : FetchOutcome ProductsBody) (products : List ShopifyProduct),
      getProducts outcome = .ok products →
      ∀ p ∈ products,
        ∃ img : ProductImage, p.image = some img ∧
          (p.images = [] → img.src = "") ∧
          (∀ firstImage rest, p.images = firstImage :: rest →
            firstImage.src = firstImage.url → img.src = firstImage.url) := by
  intro outcome products hok p hp
  cases outcome with
  | networkError message => simp [getProducts] at hok
  | response ok status body =>
    cases ok with
    | false => simp [getProducts] at hok
    | true =>
      cases body with
      | none => simp [getProducts] at hok
      | some parsed =>
        cases herr : parsed.errors with
        | some errs => simp [getProducts, herr] at hok
        | none =>
          cases hdata : parsed.data with
          | none => simp [getProducts, herr, hdata] at hok
          | some productNodes =>
            simp [getProducts, herr, hdata] at hok
            subst hok
            rcases List.mem_map.mp hp with ⟨q, _hq, rfl⟩
            cases himg : q.images with
            | nil =>
              refine ⟨{ src := "" }, ?_, fun _ => rfl, ?_⟩
              · simp [transformProduct, himg]
              · intro firstImage rest hEq _
                simp [transformProduct, himg] at hEq
            | cons i restImages =>
              refine ⟨{ src := i.src }, ?_, ?_, ?_⟩
              · simp [transformProduct, himg]
              · intro hnil; simp [transformProduct, himg] at hnil
              · intro firstImage rest hEq hsrc
                simp [transformProduct, himg] at hEq
                obtain ⟨h1, _h2⟩ := hEq
                subst h1
                exact hsrc

/-- C6 witness: the theorem applied to a concrete successful fetch of two
products, instantiated at the product with one image. -/
theorem c6_image_src_normalized_witness :
    ∃ img : ProductImage,
      (transformProduct sampleProductWithImage).image = some img ∧
      ((transformProduct sampleProductWithImage).images = [] → img.src = "") ∧
      (∀ firstImage rest,
        (transformProduct sampleProductWithImage).images = firstImage :: rest →
        firstImage.src = firstImage.url → img.src = firstImage.url) :=
  c6_image_src_normalized (.response true 200 (some sampleProductsBody))
    ([sampleProduct, sampleProductWithImage].map transformProduct) rfl
    (transformProduct sampleProductWithImage) (by decide)

/-- C2 counterexample: `createOrder` does not raise on a non-success HTTP
status — a 500 response with a parseable body yields the structured
result `{success:false, error:"Missing orderCreate field"}`, not an
exception. -/
theorem c2_counterexample_createOrder_ignores_status :
    createOrder (.response false 500 (some { data := none, errors := none })) =
      .ok (.failureMessage "Missing orderCreate field") := rfl

/-- C2 (amended): `getProducts` raises on a non-success HTTP status (and
on network failure), but `createOrder` never inspects the HTTP status: it
raises only when the fetch itself or the body parse fails, and classifies
every parsed body — whatever the status — into a structured result. -/
theorem c2_transport_error_handling :
    (∀ (status : Nat) (body : Option ProductsBody),
      getProducts (.response false status body) =
        .error ("HTTP error! status: " ++ toString status)) ∧
    (∀ message : String, getProducts (.networkError message) = .error message) ∧
    (∀ message : String, createOrder (.networkError message) = .error message) ∧
    (∀ (ok : Bool) (status : Nat) (parsed : OrderBody),
      createOrder (.response ok status (some parsed)) = .ok (classifyOrderBody parsed)) :=
  ⟨fun _ _ => rfl, fun _ => rfl, fun _ => rfl, fun _ _ _ => rfl⟩

/-- C3: the parsed-response classification of `createOrder` never throws:
non-empty `userErrors` give `{success:false, error:userErrors}`, a missing
`orderCreate` or missing `order` gives `{success:false}` with a message,
and otherwise the created order is returned with `{success:true}`;
moreover every parsed body is classified into a returned (not thrown)
result. -/
theorem c3_response_classification :
    (∀ (errors : Option (List GraphQLError)) (oc : OrderCreatePayload)
        (userErrors : List UserError),
      oc.userErrors = some userErrors → userErrors ≠ [] →
      classifyOrderBody { data := some { orderCreate := some oc }, errors := errors } =
        .failureUserErrors userErrors) ∧
    (∀ parsed : OrderBody, parsed.data.bind (fun d => d.orderCreate) = none →
      classifyOrderBody parsed = .failureMessage "Missing orderCreate field") ∧
    (∀ (errors : Option (List GraphQLError)) (oc : OrderCreatePayload),
      (oc.userErrors = none ∨ oc.userErrors = some []) → oc.order = none →
      classifyOrderBody { data := some { orderCreate := some oc }, errors := errors } =
        .failureMessage "Order not found in response") ∧
    (∀ (errors : Option (List GraphQLError)) (oc : OrderCreatePayload)
        (createdOrder : CreatedOrder),
      (oc.userErrors = none ∨ oc.userErrors = some []) → oc.order = some createdOrder →
      classifyOrderBody { data := some { orderCreate := some oc }, errors := errors } =
        .success createdOrder) ∧
    (∀ (ok : Bool) (status : Nat) (parsed : OrderBody),
      createOrder (.response ok status (some parsed)) = .ok (classifyOrderBody parsed)) := by
  refine ⟨?_, ?_, ?_, ?_, fun _ _ _ => rfl⟩
  · intro errors oc userErrors hue hne
    have hlen : userErrors.length > 0 := List.length_pos.mpr hne
    simp [classifyOrderBody, hue, hlen]
  · intro parsed hnone
    simp [classifyOrderBody, hnone]
  · intro errors oc hue horder
    rcases hue with hue | hue <;> simp [classifyOrderBody, hue, horder]
  · intro errors oc createdOrder hue horder
    rcases hue with hue | hue <;> simp [classifyOrderBody, hue, horder]

/-- C3 witness: the classification conjuncts applied to concrete bodies —
a `userErrors` body, a body with no `orderCreate`, a missing-`order`
body, and a success body. -/
theorem c3_response_classification_witness :
    classifyOrderBody sampleUserErrorsBody =
      .failureUserErrors [{ field := "lineItems", message := "x" }] ∧
    classifyOrderBody { data := none, errors := none } =
      .failureMessage "Missing orderCreate field" ∧
    classifyOrderBody sampleMissingOrderBody =
      .failureMessage "Order not found in response" ∧
    classifyOrderBody sampleSuccessBody = .success sampleCreatedOrder :=
  ⟨c3_response_classification.1 none _ _ rfl (by decide),
   c3_response_classification.2.1 _ rfl,
   c3_response_classification.2.2.1 none _ (Or.inr rfl) rfl,
   c3_response_classification.2.2.2.1 none _ _ (Or.inl rfl) rfl⟩

/-- C9: when `firstName`, `lastName`, or `phone` is the empty string, the
constructed request substitutes `"Return"`, `"Return"`, and
`"+34608667749"` respectively, identically in the billing and in the
shipping address. -/
theorem c9_empty_contact_fields_defaulted (orderData : CreateOrderArg) :
    (orderData.firstName = "" →
      (createOrderVariables orderData).order.billingAddress.firstName = "Return" ∧
      (createOrderVariables orderData).order.shippingAddress.firstName = "Return") ∧
    (orderData.lastName = "" →
      (createOrderVariables orderData).order.billingAddress.lastName = "Return" ∧
      (createOrderVariables orderData).order.shippingAddress.lastName = "Return") ∧
    (orderData.phone = "" →
      (createOrderVariables orderData).order.billingAddress.phone = "+34608667749" ∧
      (createOrderVariables orderData).order.shippingAddress.phone = "+34608667749") := by
  refine ⟨fun h => ?_, fun h => ?_, fun h => ?_⟩ <;>
    simp [createOrderVariables, orDefault, h]

/-- C9 witness: the defaults at a concrete argument with all three fields
empty. -/
theorem c9_empty_contact_fields_defaulted_witness :
    (createOrderVariables
        { firstName := "", lastName := "", email := "a@b.c", phone := ""
          address1 := "Calle Mayor 5", city := "Madrid", zip := "28001"
          productId := none, variantId := none, lineItems := none
        }).order.billingAddress.firstName = "Return" ∧
    (createOrderVariables
        { firstName := "", lastName := "", email := "a@b.c", phone := ""
          address1 := "Calle Mayor 5", city := "Madrid", zip := "28001"
          productId := none, variantId := none, lineItems := none
        }).order.shippingAddress.lastName = "Return" ∧
    (createOrderVariables
        { firstName := "", lastName := "", email := "a@b.c", phone := ""
          address1 := "Calle Mayor 5", city := "Madrid", zip := "28001"
          productId := none, variantId := none, lineItems := none
        }).order.shippingAddress.phone = "+34608667749" :=
  ⟨(c9_empty_contact_fields_defaulted _ |>.1 rfl).1,
   (c9_empty_contact_fields_defaulted _ |>.2.1 rfl).2,
   (c9_empty_contact_fields_defaulted _ |>.2.2 rfl).2⟩

/-- C10: for a cart containing the variant, `updateQuantity` with a
quantity of zero or less is exactly `removeFromCart` for that variant —
the item is removed, not rejected or clamped. -/
theorem c10_nonpositive_update_removes (state : CartState) (variantId : String)
    (quantity : Int)
    (_hmem : ∃ item ∈ state.cartItems, item.variantId = variantId)
    (hq : quantity ≤ 0) :
    updateQuantity state variantId quantity = removeFromCart state variantId := by
  unfold updateQuantity
  rw [if_pos hq]

/-- C10 witness: the equivalence at a concrete one-item cart and quantity
zero. -/
theorem c10_nonpositive_update_removes_witness :
    updateQuantity { cartItems := [sampleCartItem], error := none } "gid-variant-1" 0 =
      removeFromCart { cartItems := [sampleCartItem], error := none } "gid-variant-1" :=
  c10_nonpositive_update_removes _ _ _ ⟨sampleCartItem, by decide, by decide⟩ (by decide)

/-- C1 (code bug): submitting a cart holding variant `gid-variant-1` with
quantity 2 fires the mutation exactly once, but the fired request's line
items are the hardcoded `[{variantId: undefined, quantity: 1}]` of
`createOrder` — `orderData.lineItems` is never read — and not the cart's
`[{variantId: "gid-variant-1", quantity: 2}]`. -/
theorem c1_cart_line_items_dropped :
    (handleSubmit sampleForm [sampleCartItem]).length = 1 ∧
    (handleSubmit sampleForm [sampleCartItem]).map (fun request => request.order.lineItems) =
      [[{ variantId := none, quantity := 1, requiresShipping := true }]] ∧
    ([{ variantId := none, quantity := 1, requiresShipping := true }] :
        List RequestLineItem) ≠
      [{ variantId := some "gid-variant-1", quantity := 2, requiresShipping := true }] :=
  ⟨by decide, by decide, by decide⟩

/-- HELPER: a loader step preserves the loader invariant. -/
theorem stepLoader_inv (s : LoaderState) (e : LoaderEvent) (h : LoaderInv s) :
    LoaderInv (stepLoader s e) := by
  obtain ⟨h1, h2⟩ := h
  cases e with
  | onload => exact ⟨h1, h2⟩
  | onerror => exact ⟨h1, h2⟩
  | call =>
    cases hload : s.isScriptLoaded with
    | true =>
      simp only [stepLoader, loadGoogleMapsScript, hload, if_true]
      exact ⟨h1, h2⟩
    | false =>
      cases hprom : s.scriptLoadPromise with
      | some promiseId =>
        simp only [stepLoader, loadGoogleMapsScript, hload, hprom]
        exact ⟨h1, h2⟩
      | none =>
        cases hdom : s.domHasScript with
        | true =>
          simp only [stepLoader, loadGoogleMapsScript, hload, hprom, hdom]
          exact ⟨h1, fun habs => by simp at habs⟩
        | false =>
          simp only [stepLoader, loadGoogleMapsScript, hload, hprom, hdom]
          refine ⟨?_, fun habs => by simp at habs⟩
          have : s.injectedScripts = 0 := h2 hprom
          simp [this]

/-- HELPER: running any event sequence preserves the loader invariant. -/
theorem runLoader_inv (events : List LoaderEvent) :
    ∀ s : LoaderState, LoaderInv s → LoaderInv (runLoader s events) := by
  induction events with
  | nil => intro s h; exact h
  | cons e rest ih => intro s h; exact ih _ (stepLoader_inv s e h)

/-- C7: from a fresh module state, any sequence of loader calls and
script callbacks injects at most one script element; a call made while a
load is in flight returns the cached promise and changes nothing; and a
call made after the loaded flag is set returns a fresh already-resolved
promise and changes nothing (in particular creates no script element). -/
theorem c7_script_loader_idempotent :
    (∀ (domHasScript : Bool) (events : List LoaderEvent),
      (runLoader (initialLoaderState domHasScript) events).injectedScripts ≤ 1) ∧
    (∀ (s : LoaderState) (promiseId : Nat),
      s.isScriptLoaded = false → s.scriptLoadPromise = some promiseId →
      loadGoogleMapsScript s = (.cached promiseId, s)) ∧
    (∀ s : LoaderState, s.isScriptLoaded = true →
      loadGoogleMapsScript s = (.freshResolved, s)) := by
  refine ⟨?_, ?_, ?_⟩
  · intro domHasScript events
    exact (runLoader_inv events (initialLoaderState domHasScript)
      ⟨Nat.zero_le 1, fun _ => rfl⟩).1
  · intro s promiseId hload hprom
    simp [loadGoogleMapsScript, hload, hprom]
  · intro s hload
    simp [loadGoogleMapsScript, hload]

/-- C7 witness: the three conjuncts at concrete states — a double call
from a fresh state, a call on an in-flight state, and a call on a loaded
state. -/
theorem c7_script_loader_idempotent_witness :
    (runLoader (initialLoaderState false)
      [.call, .call, .onload, .call]).injectedScripts ≤ 1 ∧
    loadGoogleMapsScript sampleInFlightLoader = (.cached 0, sampleInFlightLoader) ∧
    loadGoogleMapsScript sampleLoadedLoader = (.freshResolved, sampleLoadedLoader) :=
  ⟨c7_script_loader_idempotent.1 false [.call, .call, .onload, .call],
   c7_script_loader_idempotent.2.1 sampleInFlightLoader 0 rfl rfl,
   c7_script_loader_idempotent.2.2 sampleLoadedLoader rfl⟩

/-- HELPER: every member of `updateFirstQuantity items variantId q` is
either an untouched member of `items` or the first item found for
`variantId` with its quantity bumped by `q`. -/
theorem mem_updateFirstQuantity {items : List CartItem} {variantId : String}
    {q : Int} {item : CartItem}
    (h : item ∈ updateFirstQuantity items variantId q) :
    item ∈ items ∨
      ∃ found, items.find? (fun it => it.variantId = variantId) = some found ∧
        item = { found with quantity := found.quantity + q } := by
  induction items with
  | nil => simp [updateFirstQuantity] at h
  | cons a rest ih =>
    by_cases ha : a.variantId = variantId
    · simp only [updateFirstQuantity, if_pos ha] at h
      rcases List.mem_cons.mp h with heq | hmem
      · refine Or.inr ⟨a, ?_, heq⟩
        rw [List.find?_cons_of_pos _ (by simp [ha])]
      · exact Or.inl (List.mem_cons_of_mem _ hmem)
    · simp only [updateFirstQuantity, if_neg ha] at h
      rcases List.mem_cons.mp h with heq | hmem
      · exact Or.inl (heq ▸ List.mem_cons_self _ _)
      · rcases ih hmem with hin | ⟨found, hfind, heq2⟩
        · exact Or.inl (List.mem_cons_of_mem _ hin)
        · refine Or.inr ⟨found, ?_, heq2⟩
          rw [List.find?_cons_of_neg _ (by simp [ha])]
          exact hfind

/-- HELPER: `addToCart` preserves stock consistency when the passed
variant record agrees with the fixed inventory. -/
theorem addToCart_consistent (inventoryOf : String → Int) (state : CartState)
    (product : ShopifyProduct) (variant : CartVariant) (quantity : Int)
    (hvar : variant.inventoryQuantity = inventoryOf variant.id)
    (hs : cartConsistent inventoryOf state) :
    cartConsistent inventoryOf (addToCart state product variant quantity) := by
  by_cases hguard :
      currentQuantityOf state.cartItems variant.id + quantity > variant.inventoryQuantity
  · unfold addToCart
    rw [if_pos hguard]
    exact hs
  · unfold addToCart
    rw [if_neg hguard]
    push_neg at hguard
    cases hfind : state.cartItems.find? (fun item => item.variantId = variant.id) with
    | some found =>
      intro item hitem
      rcases mem_updateFirstQuantity hitem with hin | ⟨found', hfind', heq⟩
      · exact hs item hin
      · rw [hfind] at hfind'
        injection hfind' with hf
        subst hf
        subst heq
        have hfoundmem : found ∈ state.cartItems := List.mem_of_find?_eq_some hfind
        have hfoundpred : found.variantId = variant.id := by
          simpa using List.find?_some hfind
        obtain ⟨_, hc⟩ := hs found hfoundmem
        have hcur : currentQuantityOf state.cartItems variant.id = found.quantity := by
          unfold currentQuantityOf
          rw [hfind]
        rw [hcur] at hguard
        have hinv : found.variant.inventoryQuantity = variant.inventoryQuantity := by
          rw [hc, hfoundpred, ← hvar]
        constructor
        · simpa [hinv] using hguard
        · simpa using hc
    | none =>
      intro item hitem
      rcases List.mem_append.mp hitem with hin | hnew
      · exact hs item hin
      · simp only [List.mem_singleton] at hnew
        subst hnew
        have hcur : currentQuantityOf state.cartItems variant.id = 0 := by
          unfold currentQuantityOf
          rw [hfind]
        rw [hcur, zero_add] at hguard
        exact ⟨hguard, hvar⟩

/-- HELPER: `updateQuantity` preserves stock consistency. -/
theorem updateQuantity_consistent (inventoryOf : String → Int) (state : CartState)
    (variantId : String) (quantity : Int)
    (hs : cartConsistent inventoryOf state) :
    cartConsistent inventoryOf (updateQuantity state variantId quantity) := by
  unfold updateQuantity
  by_cases hq : quantity ≤ 0
  · rw [if_pos hq]
    intro item hitem
    exact hs item (List.mem_of_mem_filter hitem)
  · rw [if_neg hq]
    cases hfind : state.cartItems.find? (fun item => item.variantId = variantId) with
    | some found =>
      by_cases hbig : quantity > found.variant.inventoryQuantity
      · have hex : exceedsStoredStock state.cartItems variantId quantity = true := by
          unfold exceedsStoredStock
          rw [hfind]
          simpa using hbig
        rw [if_pos hex]
        exact hs
      · have hex : exceedsStoredStock state.cartItems variantId quantity = false := by
          unfold exceedsStoredStock
          rw [hfind]
          simpa using hbig
        rw [if_neg (by simp [hex])]
        push_neg at hbig
        intro item hitem
        rcases List.mem_map.mp hitem with ⟨orig, horig, heq⟩
        by_cases hmatch : orig.variantId = variantId
        · rw [if_pos hmatch] at heq
          subst heq
          obtain ⟨_, hc⟩ := hs orig horig
          have hfc := (hs found (List.mem_of_find?_eq_some hfind)).2
          have hfp : found.variantId = variantId := by
            simpa using List.find?_some hfind
          have hinv : orig.variant.inventoryQuantity = found.variant.inventoryQuantity := by
            rw [hc, hmatch, ← hfp, ← hfc]
          constructor
          · simpa [hinv] using hbig
          · simpa using hc
        · rw [if_neg hmatch] at heq
          subst heq
          exact hs orig horig
    | none =>
      have hex : exceedsStoredStock state.cartItems variantId quantity = false := by
        unfold exceedsStoredStock
        rw [hfind]
      rw [if_neg (by simp [hex])]
      intro item hitem
      rcases List.mem_map.mp hitem with ⟨orig, horig, heq⟩
      have hnomatch : ¬(orig.variantId = variantId) := by
        have := List.find?_eq_none.mp hfind orig horig
        simpa using this
      rw [if_neg hnomatch] at heq
      subst heq
      exact hs orig horig

/-- HELPER: `removeFromCart` preserves stock consistency. -/
theorem removeFromCart_consistent (inventoryOf : String → Int) (state : CartState)
    (variantId : String) (hs : cartConsistent inventoryOf state) :
    cartConsistent inventoryOf (removeFromCart state variantId) := by
  intro item hitem
  exact hs item (List.mem_of_mem_filter hitem)

/-- HELPER: running consistent cart operations preserves stock
consistency. -/
theorem runCartOps_consistent (inventoryOf : String → Int) (ops : List CartOp) :
    ∀ state : CartState, cartConsistent inventoryOf state →
      (∀ op ∈ ops, opConsistent inventoryOf op = true) →
      cartConsistent inventoryOf (runCartOps state ops) := by
  induction ops with
  | nil => intro state hstate _; exact hstate
  | cons op rest ih =>
    intro state hstate hops
    have hrest : ∀ o ∈ rest, opConsistent inventoryOf o = true :=
      fun o ho => hops o (List.mem_cons_of_mem _ ho)
    have hstep : cartConsistent inventoryOf (applyCartOp state op) := by
      cases op with
      | add product variant quantity =>
        have hvar : variant.inventoryQuantity = inventoryOf variant.id := by
          have := hops _ (List.mem_cons_self _ _)
          simpa [opConsistent] using this
        exact addToCart_consistent inventoryOf state product variant quantity hvar hstate
      | update variantId quantity =>
        exact updateQuantity_consistent inventoryOf state variantId quantity hstate
      | remove variantId =>
        exact removeFromCart_consistent inventoryOf state variantId hstate
    exact ih (applyCartOp state op) hstep hrest

/-- C5 counterexample: the stock-ceiling invariant is not maintained for
arbitrary call arguments — adding 3 of a variant whose record claims
inventory 5 and then 50 more of the same variant id through a record
claiming inventory 100 passes both guards but leaves a cart item with
quantity 53 against a stored inventory of 5. -/
theorem c5_counterexample_inconsistent_variant_records :
    ∃ item ∈ (runCartOps initialCartState
        [.add sampleProduct sampleVariantSmall 3,
         .add sampleProduct sampleVariantInflated 50]).cartItems,
      ¬(item.quantity ≤ item.variant.inventoryQuantity) := by
  decide

/-- C5 (amended): provided every `addToCart` call passes a variant record
agreeing with a fixed per-variant-id inventory (as in the app, where all
records come from one catalog fetch), every state reachable from the
empty cart via `addToCart`, `updateQuantity`, and `removeFromCart` keeps
each item's quantity at most its variant's `inventoryQuantity`; and an
`addToCart` or `updateQuantity` call whose requested quantity would
exceed that ceiling leaves the cart items unchanged. -/
theorem c5_stock_ceiling_invariant :
    (∀ (inventoryOf : String → Int) (ops : List CartOp),
      (∀ op ∈ ops, opConsistent inventoryOf op = true) →
      ∀ item ∈ (runCartOps initialCartState ops).cartItems,
        item.quantity ≤ item.variant.inventoryQuantity) ∧
    (∀ (state : CartState) (product : ShopifyProduct) (variant : CartVariant)
        (quantity : Int),
      currentQuantityOf state.cartItems variant.id + quantity > variant.inventoryQuantity →
      (addToCart state product variant quantity).cartItems = state.cartItems) ∧
    (∀ (state : CartState) (variantId : String) (quantity : Int) (found : CartItem),
      0 < quantity →
      state.cartItems.find? (fun item => item.variantId = variantId) = some found →
      quantity > found.variant.inventoryQuantity →
      (updateQuantity state variantId quantity).cartItems = state.cartItems) := by
  refine ⟨?_, ?_, ?_⟩
  · intro inventoryOf ops hops item hitem
    have hinit : cartConsistent inventoryOf initialCartState := by
      intro item hitem
      simp [initialCartState] at hitem
    exact (runCartOps_consistent inventoryOf ops initialCartState hinit hops item hitem).1
  · intro state product variant quantity hguard
    unfold addToCart
    rw [if_pos hguard]
  · intro state variantId quantity found hq hfind hbig
    have hex : exceedsStoredStock state.cartItems variantId quantity = true := by
      unfold exceedsStoredStock
      rw [hfind]
      simpa using hbig
    unfold updateQuantity
    rw [if_neg (not_le.mpr hq), if_pos hex]

/-- C5 witness: with the fixed inventory 3 for every variant, adding 2 of
`gid-variant-1` reaches a consistent cart; the over-ceiling `addToCart`
(2 + 2 > 3) and `updateQuantity` (5 > 3) calls leave the cart items
unchanged. -/
theorem c5_stock_ceiling_invariant_witness :
    sampleCartItem.quantity ≤ sampleCartItem.variant.inventoryQuantity ∧
    (addToCart { cartItems := [sampleCartItem], error := none } sampleProduct
        sampleCartItem.variant 2).cartItems = [sampleCartItem] ∧
    (updateQuantity { cartItems := [sampleCartItem], error := none }
        "gid-variant-1" 5).cartItems = [sampleCartItem] :=
  ⟨c5_stock_ceiling_invariant.1 (fun _ => 3)
      [.add sampleProduct sampleCartItem.variant 2] (by decide)
      sampleCartItem (by decide),
   c5_stock_ceiling_invariant.2.1 _ sampleProduct sampleCartItem.variant 2 (by decide),
   c5_stock_ceiling_invariant.2.2 _ "gid-variant-1" 5 sampleCartItem
      (by decide) (by decide) (by decide)⟩

/-- HELPER: a string append with a nonempty left part is nonempty. -/
theorem append_ne_empty_left (s t : String) (h : s ≠ "") : s ++ t ≠ "" := by
  intro he
  apply h
  have hd : s.data ++ t.data = ([] : List Char) := by
    have := congrArg String.data he
    simpa using this
  exact String.ext (List.append_eq_nil.mp hd).1

/-- HELPER: the spec's space-join of a nonempty list is its head followed
by the space-prefixed tail join. -/
theorem specStreetJoin_cons :
    ∀ (rest : List String) (longName : String),
      specStreetJoin (longName :: rest) = longName ++ spaceTailJoin rest := by
  intro rest
  induction rest with
  | nil => intro longName; simp [specStreetJoin, spaceTailJoin]
  | cons r rs ih =>
    intro longName
    have h1 : specStreetJoin (longName :: r :: rs) =
        longName ++ " " ++ specStreetJoin (r :: rs) := rfl
    rw [h1, ih r]
    show longName ++ " " ++ (r ++ spaceTailJoin rs) =
      longName ++ (" " ++ r ++ spaceTailJoin rs)
    simp [String.append_assoc]

/-- HELPER: the city accumulated by the component loop is the long name
of the last city-typed component, or the incoming accumulator. -/
theorem foldl_placeStep_city :
    ∀ (components : List AddressComponent) (acc : String × String × String),
      (List.foldl placeStep acc components).2.1 =
        lastOrDefault acc.2.1 (cityLongNames components) := by
  intro components
  induction components with
  | nil => intro acc; rfl
  | cons c rest ih =>
    intro acc
    rw [List.foldl_cons, ih]
    cases hc : isCityComponent c with
    | true => simp [cityLongNames, placeStep, hc, lastOrDefault]
    | false => simp [cityLongNames, placeStep, hc]

/-- HELPER: the zip accumulated by the component loop is the long name of
the last postal-code component, or the incoming accumulator. -/
theorem foldl_placeStep_zip :
    ∀ (components : List AddressComponent) (acc : String × String × String),
      (List.foldl placeStep acc components).2.2 =
        lastOrDefault acc.2.2 (zipLongNames components) := by
  intro components
  induction components with
  | nil => intro acc; rfl
  | cons c rest ih =>
    intro acc
    rw [List.foldl_cons, ih]
    cases hc : isZipComponent c with
    | true => simp [zipLongNames, placeStep, hc, lastOrDefault]
    | false => simp [zipLongNames, placeStep, hc]

/-- HELPER: once the street accumulator is nonempty, the loop appends a
space before every further street long name. -/
theorem foldl_placeStep_street_ne :
    ∀ (components : List AddressComponent) (acc : String × String × String),
      acc.1 ≠ "" →
      (List.foldl placeStep acc components).1 =
        acc.1 ++ spaceTailJoin (streetLongNames components) := by
  intro components
  induction components with
  | nil => intro acc _; simp [streetLongNames, spaceTailJoin]
  | cons c rest ih =>
    intro acc hne
    rw [List.foldl_cons]
    cases hc : isStreetComponent c with
    | true =>
      have hstreet : (placeStep acc c).1 = acc.1 ++ " " ++ c.long_name := by
        simp [placeStep, hc, hne]
      have hne' : (placeStep acc c).1 ≠ "" := by
        rw [hstreet]
        exact append_ne_empty_left _ _ (append_ne_empty_left _ _ hne)
      rw [ih _ hne', hstreet]
      have hlist : streetLongNames (c :: rest) = c.long_name :: streetLongNames rest := by
        simp [streetLongNames, hc]
      rw [hlist]
      show acc.1 ++ " " ++ c.long_name ++ spaceTailJoin (streetLongNames rest) =
        acc.1 ++ (" " ++ c.long_name ++ spaceTailJoin (streetLongNames rest))
      simp [String.append_assoc]
    | false =>
      have hstreet : (placeStep acc c).1 = acc.1 := by
        simp [placeStep, hc]
      have hne' : (placeStep acc c).1 ≠ "" := by rw [hstreet]; exact hne
      rw [ih _ hne', hstreet]
      have hlist : streetLongNames (c :: rest) = streetLongNames rest := by
        simp [streetLongNames, hc]
      rw [hlist]

/-- HELPER: from an empty street accumulator, when every street long name
is nonempty, the loop computes exactly the spec's space-join. -/
theorem foldl_placeStep_street_empty :
    ∀ (components : List AddressComponent) (acc : String × String × String),
      acc.1 = "" →
      (∀ name ∈ streetLongNames components, name ≠ "") →
      (List.foldl placeStep acc components).1 =
        specStreetJoin (streetLongNames components) := by
  intro components
  induction components with
  | nil => intro acc hempty _; simpa [streetLongNames, specStreetJoin] using hempty
  | cons c rest ih =>
    intro acc hempty hnames
    rw [List.foldl_cons]
    cases hc : isStreetComponent c with
    | true =>
      have hlist : streetLongNames (c :: rest) = c.long_name :: streetLongNames rest := by
        simp [streetLongNames, hc]
      have hlong : c.long_name ≠ "" := by
        apply hnames
        rw [hlist]
        exact List.mem_cons_self _ _
      have hstreet : (placeStep acc c).1 = c.long_name := by
        simp [placeStep, hc, hempty]
      have hne' : (placeStep acc c).1 ≠ "" := by rw [hstreet]; exact hlong
      rw [foldl_placeStep_street_ne rest _ hne', hstreet, hlist,
        specStreetJoin_cons (streetLongNames rest) c.long_name]
    | false =>
      have hlist : streetLongNames (c :: rest) = streetLongNames rest := by
        simp [streetLongNames, hc]
      have hstreet : (placeStep acc c).1 = acc.1 := by
        simp [placeStep, hc]
      have hnames' : ∀ name ∈ streetLongNames rest, name ≠ "" := by
        intro name hn
        exact hnames name (by rw [hlist]; exact hn)
      rw [ih _ (by rw [hstreet]; exact hempty) hnames', hlist]

/-- C8 counterexample: for a place whose first `route` component has an
empty `long_name`, the handler delivers street `"Foo"`, while the claimed
space-joined concatenation of the street long names is `" Foo"` — the
delivered street is not that concatenation. -/
theorem c8_counterexample_empty_component_name :
    handlePlaceChanged samplePlaceLeadingEmpty =
      some { street := "Foo", city := "", zip := "" } ∧
    specStreetJoin (streetLongNames [sampleRouteEmpty, sampleRouteFoo]) = " Foo" ∧
    ("Foo" : String) ≠ " Foo" :=
  ⟨by decide, by decide, by decide⟩

/-- C8 (amended): for every selected place with `address_components`
whose street components all have non-empty long names, the handler
delivers street equal to the space-joined concatenation of the
route/street-number long names — or the place's `formatted_address` when
that concatenation is empty — city equal to the last locality/admin-2
long name (empty string when none), and zip equal to the last postal-code
long name (empty string when none), raising no error. -/
theorem c8_place_components_extraction (place : Place)
    (components : List AddressComponent)
    (hcomps : place.address_components = some components)
    (hnames : ∀ name ∈ streetLongNames components, name ≠ "") :
    handlePlaceChanged place = some
      { street := if specStreetJoin (streetLongNames components) = ""
                  then place.formatted_address.getD ""
                  else specStreetJoin (streetLongNames components)
        city := lastOrDefault "" (cityLongNames components)
        zip := lastOrDefault "" (zipLongNames components) } := by
  have hstreet := foldl_placeStep_street_empty components ("", "", "") rfl hnames
  have hcity := foldl_placeStep_city components ("", "", "")
  have hzip := foldl_placeStep_zip components ("", "", "")
  unfold handlePlaceChanged
  rw [hcomps]
  simp only [extractParts] at hstreet hcity hzip
  cases hfa : place.formatted_address with
  | none =>
    simp only [extractParts, hstreet, hcity, hzip]
    by_cases hj : specStreetJoin (streetLongNames components) = ""
    · simp [hj]
    · simp [hj]
  | some formatted =>
    simp only [extractParts, hstreet, hcity, hzip]
    by_cases hj : specStreetJoin (streetLongNames components) = ""
    · by_cases hf : formatted = ""
      · simp [hj, hf]
      · simp [hj, hf]
    · simp [hj]

/-- C8 witness: the amended extraction applied to a concrete Madrid
place with route, street-number, locality, and postal-code components. -/
theorem c8_place_components_extraction_witness :
    handlePlaceChanged samplePlaceMadrid = some
      { street := if specStreetJoin (streetLongNames sampleMadridComponents) = ""
                  then samplePlaceMadrid.formatted_address.getD ""
                  else specStreetJoin (streetLongNames sampleMadridComponents)
        city := lastOrDefault "" (cityLongNames sampleMadridComponents)
        zip := lastOrDefault "" (zipLongNames sampleMadridComponents) } :=
  c8_place_components_extraction samplePlaceMadrid sampleMadridComponents rfl (by decide)
